import Mathlib

/-!
# Verification of the PNG export orchestrator (`generate_pngs.py`)

A shallow embedding of the single-module script `generate_pngs.py` from
fisherjoey/SportsManager.  The script batch-converts a fixed registry of SVG
logo files to PNG at six pixel widths, trying Inkscape first and falling back
to ImageMagick, reporting every outcome as a printed line.

The embedding models the script's observable behaviour as a trace of events
(directory creations, external tool invocations, printed lines) parameterised
by an environment that decides which source files exist, whether directory
creation succeeds, and what each external tool invocation does.
-/

namespace GeneratePngs

/-- Python exception classes that can arise in the script: `Exception` raised
on a non-zero Inkscape exit (line 58), `OSError`/`FileNotFoundError` from
`subprocess.run` when a tool is not installed, `CalledProcessError` from
`check=True` (line 70), and the `BaseException` subclasses `KeyboardInterrupt`
and `SystemExit` that can be raised while blocked on a child process. -/
inductive ExcClass
  | exception
  | osError
  | calledProcessError
  | keyboardInterrupt
  | systemExit
  deriving DecidableEq, Repr

/-- Outcome of one `subprocess.run` call: either the child process completed
with a return code (and produced some stdout/stderr text, which the script
captures), or the call itself raised an exception (launch failure,
interrupt, ...). -/
inductive RunOutcome
  | completed (returncode : Int) (stdout stderr : String)
  | raised (e : ExcClass)
  deriving DecidableEq, Repr

/-- The status of a run outcome: the return code if the child completed, or
the exception class if the call raised.  Discards captured stdout/stderr. -/
def statusOf : RunOutcome → Except ExcClass Int
  | .completed rc _ _ => .ok rc
  | .raised e => .error e

/-- Observable events of the script, in order of occurrence:
`Path.mkdir` calls (with their `parents`/`exist_ok` flags), the two
`subprocess.run` invocations (source path, requested pixel width, output path,
and whether `capture_output=True` was passed), `print` calls, and file writes
performed by the script itself (the script never performs any: all PNG
writing happens inside the external tools). -/
inductive Event
  | mkdir (dir : String) (parents exist_ok : Bool)
  | runInkscape (svg : String) (size : Nat) (out : String) (captureOutput : Bool)
  | runMagick (svg : String) (size : Nat) (out : String) (captureOutput : Bool)
  | printed (line : String)
  | wrote (path : String)
  deriving DecidableEq, Repr

/-- `svg_files` (lines 6-14): registry mapping each SVG file name to the short
token used in output file names; a Python dict iterated in insertion order. -/
def svg_files : List (String × String) :=
  [("synced-sports-primary.svg", "primary"),
   ("synced-sports-horizontal.svg", "horizontal"),
   ("synced-sports-icon.svg", "icon"),
   ("synced-sports-waves-only.svg", "waves"),
   ("synced-sports-black.svg", "black"),
   ("synced-sports-white.svg", "white"),
   ("synced-sports-wordmark.svg", "wordmark")]

/-- `sizes` (lines 17-21): size catalog, category label to pixel widths. -/
def sizes : List (String × List Nat) :=
  [("small", [32, 64]), ("medium", [128, 256]), ("large", [512, 1024])]

/-- The widths in the order the nested `for category in sizes: for size in
sizes[category]` loops visit them. -/
def allWidths : List Nat := (sizes.map Prod.snd).flatten

/-- `Path` division `p / q` (POSIX join with a single separator). -/
def pathJoin (a b : String) : String := a ++ "/" ++ b

/-- `svg_dir` (line 23). -/
def svg_dir : String := "SyncedSports-BrandPack/Logos/SVG"

/-- `png_dir` (line 24). -/
def png_dir : String := "SyncedSports-BrandPack/Logos/PNG"

/-- The resolved source path `svg_dir / svg_file` (line 36). -/
def svgPath (svgFile : String) : String := pathJoin svg_dir svgFile

/-- The per-width output directory `png_dir / f'{size}px'` (lines 29, 43). -/
def sizeDir (size : Nat) : String := pathJoin png_dir (toString size ++ "px")

/-- `output_path.name`, i.e. `f'synced-sports-{base_name}-{size}.png'`. -/
def outputName (base : String) (size : Nat) : String :=
  "synced-sports-" ++ base ++ "-" ++ toString size ++ ".png"

/-- `output_path` (line 43): `png_dir / f'{size}px' / f'synced-sports-{base_name}-{size}.png'`. -/
def outputPath (base : String) (size : Nat) : String :=
  pathJoin (sizeDir size) (outputName base size)

/-- The closing line printed at line 76. -/
def closingLine : String :=
  "\nPNG generation attempted. Some files may need manual conversion if tools are not installed."

/-- Environment: which paths exist on the filesystem, whether `mkdir`
succeeds for a given directory, and the outcome of each tool invocation,
keyed by (svg file name, pixel width). -/
structure Env where
  fsExists : String → Bool
  mkdirOk : String → Bool
  primary : String → Nat → RunOutcome
  secondary : String → Nat → RunOutcome

/-- Result of the Inkscape `try` body (lines 54-58): if `subprocess.run`
returned, success exactly when `result.returncode == 0`, otherwise
`raise Exception("Inkscape failed")`; if `subprocess.run` itself raised,
that exception propagates to the `except`. -/
def primaryResult (o : RunOutcome) : Except ExcClass Unit :=
  match o with
  | .completed rc _ _ => if rc = 0 then .ok () else .error .exception
  | .raised e => .error e

/-- Result of the ImageMagick call (line 70): `check=True` turns a non-zero
exit into a raised `CalledProcessError`; a launch failure or interrupt
raises directly. -/
def secondaryResult (o : RunOutcome) : Except ExcClass Unit :=
  match o with
  | .completed rc _ _ => if rc = 0 then .ok () else .error .calledProcessError
  | .raised e => .error e

/-- Python's bare `except:` (lines 59 and 72) catches every `BaseException`
subclass, `KeyboardInterrupt` and `SystemExit` included: it catches every
exception class without exception. -/
def bareExceptCatches (_ : ExcClass) : Bool := true

/-- The body of the inner width loop (lines 43-74) for one
(svg file, width) pair, given the outcomes `pOut`/`sOut` the environment
assigns to the Inkscape and ImageMagick invocations for this pair.  Returns
the events emitted and the exception that escapes the two `try/except`
blocks, if any (none ever does, since both handlers are bare `except:`). -/
def processPair (pOut sOut : RunOutcome) (svgFile base : String) (size : Nat) :
    List Event × Except ExcClass Unit :=
  let svg := svgPath svgFile
  let out := outputPath base size
  match primaryResult pOut with
  | .ok _ =>
      ([.runInkscape svg size out true,
        .printed ("Created " ++ outputName base size)], .ok ())
  | .error e =>
      if bareExceptCatches e then
        match secondaryResult sOut with
        | .ok _ =>
            ([.runInkscape svg size out true, .runMagick svg size out true,
              .printed ("Created " ++ outputName base size ++ " (with ImageMagick)")], .ok ())
        | .error e2 =>
            if bareExceptCatches e2 then
              ([.runInkscape svg size out true, .runMagick svg size out true,
                .printed ("Could not convert " ++ svgFile ++ " to " ++ toString size
                  ++ "px PNG - tools not available")], .ok ())
            else
              ([.runInkscape svg size out true, .runMagick svg size out true], .error e2)
      else
        ([.runInkscape svg size out true], .error e)

/-- The inner loops over widths (lines 41-74) for one source file; an escaped
exception would abort the remaining iterations. -/
def runWidths (env : Env) (svgFile base : String) : List Nat → List Event × Except ExcClass Unit
  | [] => ([], .ok ())
  | size :: rest =>
      let r := processPair (env.primary svgFile size) (env.secondary svgFile size) svgFile base size
      match r.2 with
      | .error e => (r.1, .error e)
      | .ok _ =>
          let r2 := runWidths env svgFile base rest
          (r.1 ++ r2.1, r2.2)

/-- The body of the outer source loop (lines 35-74) for one registry entry:
the existence check at line 37 happens here, once per source, before the
width loops; a missing source prints one notice and skips all widths. -/
def processSource (env : Env) (svgFile base : String) : List Event × Except ExcClass Unit :=
  if env.fsExists (svgPath svgFile) then
    runWidths env svgFile base allWidths
  else
    ([.printed ("Skipping " ++ svgFile ++ " - file not found")], .ok ())

/-- The outer loop over registry entries (line 35). -/
def runSources (env : Env) : List (String × String) → List Event × Except ExcClass Unit
  | [] => ([], .ok ())
  | (f, b) :: rest =>
      let r := processSource env f b
      match r.2 with
      | .error e => (r.1, .error e)
      | .ok _ =>
          let r2 := runSources env rest
          (r.1 ++ r2.1, r2.2)

/-- The setup phase (lines 27-30): create each `<size>px` directory with
`parents=True, exist_ok=True`; a failing `mkdir` raises an uncaught
`OSError`, aborting everything that follows. -/
def makeDirs (env : Env) : List Nat → List Event × Except ExcClass Unit
  | [] => ([], .ok ())
  | size :: rest =>
      if env.mkdirOk (sizeDir size) then
        let r := makeDirs env rest
        (Event.mkdir (sizeDir size) true true :: r.1, r.2)
      else
        ([], .error .osError)

/-- The whole script run (lines 27-76): setup phase, opening print,
conversion sweep, closing print.  Returns the event trace and the exception
that terminates the process abnormally, if any. -/
def runScript (env : Env) : List Event × Except ExcClass Unit :=
  let s := makeDirs env allWidths
  match s.2 with
  | .error e => (s.1, .error e)
  | .ok _ =>
      let evs := s.1 ++ [Event.printed "Generating PNG exports..."]
      let r := runSources env svg_files
      match r.2 with
      | .error e => (evs ++ r.1, .error e)
      | .ok _ => (evs ++ r.1 ++ [Event.printed closingLine], .ok ())

/-- The output paths targeted by tool invocations during a run, in order. -/
def targetPaths (env : Env) : List String :=
  (runScript env).1.filterMap fun e =>
    match e with
    | .runInkscape _ _ out _ => some out
    | .runMagick _ _ out _ => some out
    | _ => none

/-- Token for a registry file name, as looked up in `svg_files`. -/
def tokenFor (svgFile : String) : Option String :=
  (svg_files.find? fun p => p.1 == svgFile).map Prod.snd

/-- The shapes of line the orchestrator itself prints: the opening and
closing lines, a skip notice, a creation notice (either tool), or a
conversion-failure notice. -/
def isStatusLine (s : String) : Prop :=
  s = "Generating PNG exports..."
  ∨ s = closingLine
  ∨ (∃ f, s = "Skipping " ++ f ++ " - file not found")
  ∨ (∃ b size, s = "Created " ++ outputName b size)
  ∨ (∃ b size, s = "Created " ++ outputName b size ++ " (with ImageMagick)")
  ∨ (∃ (f : String) (size : Nat), s = "Could not convert " ++ f ++ " to "
      ++ toString size ++ "px PNG - tools not available")

/-- Concrete run: no source file exists, every `mkdir` succeeds, neither
tool is installed. -/
def envNone : Env where
  fsExists := fun _ => false
  mkdirOk := fun _ => true
  primary := fun _ _ => .raised .osError
  secondary := fun _ _ => .raised .osError

/-- Concrete run: every source exists, every `mkdir` succeeds, both tools
exit with status zero. -/
def envInkscapeOk : Env where
  fsExists := fun _ => true
  mkdirOk := fun _ => true
  primary := fun _ _ => .completed 0 "" ""
  secondary := fun _ _ => .completed 0 "" ""

/-- Concrete run: every source exists, every `mkdir` succeeds, neither tool
can be launched. -/
def envNoTools : Env where
  fsExists := fun _ => true
  mkdirOk := fun _ => true
  primary := fun _ _ => .raised .osError
  secondary := fun _ _ => .raised .osError

/-- Concrete run: Inkscape is not installed, ImageMagick exits zero. -/
def envMagickOnly : Env where
  fsExists := fun _ => true
  mkdirOk := fun _ => true
  primary := fun _ _ => .raised .osError
  secondary := fun _ _ => .completed 0 "" ""

/-- Concrete run: both tools exit zero, printing one set of diagnostics. -/
def envChatterA : Env where
  fsExists := fun _ => true
  mkdirOk := fun _ => true
  primary := fun _ _ => .completed 0 "diagnostics A" "warning A"
  secondary := fun _ _ => .completed 0 "" ""

/-- Concrete run: like `envChatterA` but the tools print different text. -/
def envChatterB : Env where
  fsExists := fun _ => true
  mkdirOk := fun _ => true
  primary := fun _ _ => .completed 0 "diagnostics B" "warning B"
  secondary := fun _ _ => .completed 0 "" ""

/-! ## Structural lemmas -/

theorem processPair_snd_ok (pOut sOut : RunOutcome) (svgFile base : String) (size : Nat) :
    (processPair pOut sOut svgFile base size).2 = Except.ok () := by
  unfold processPair
  cases primaryResult pOut with
  | ok u => rfl
  | error e =>
      cases secondaryResult sOut with
      | ok u => rfl
      | error e2 => rfl

theorem runWidths_eq (env : Env) (svgFile base : String) (l : List Nat) :
    runWidths env svgFile base l =
      ((l.map fun size =>
          (processPair (env.primary svgFile size) (env.secondary svgFile size)
            svgFile base size).1).flatten,
       Except.ok ()) := by
  induction l with
  | nil => rfl
  | cons size rest ih =>
      unfold runWidths
      rw [show (processPair (env.primary svgFile size) (env.secondary svgFile size)
            svgFile base size)
          = ((processPair (env.primary svgFile size) (env.secondary svgFile size)
              svgFile base size).1, Except.ok ()) from
        Prod.ext rfl (processPair_snd_ok ..)]
      simp [ih]

theorem processSource_snd_ok (env : Env) (svgFile base : String) :
    (processSource env svgFile base).2 = Except.ok () := by
  unfold processSource
  by_cases h : env.fsExists (svgPath svgFile) = true
  · simp [h, runWidths_eq]
  · simp [h]

theorem runSources_eq (env : Env) (l : List (String × String)) :
    runSources env l =
      ((l.map fun p => (processSource env p.1 p.2).1).flatten, Except.ok ()) := by
  induction l with
  | nil => rfl
  | cons p rest ih =>
      obtain ⟨f, b⟩ := p
      unfold runSources
      rw [show processSource env f b = ((processSource env f b).1, Except.ok ()) from
        Prod.ext rfl (processSource_snd_ok ..)]
      simp [ih]

theorem makeDirs_all_ok (env : Env) (l : List Nat)
    (h : ∀ size ∈ l, env.mkdirOk (sizeDir size) = true) :
    makeDirs env l = (l.map fun size => Event.mkdir (sizeDir size) true true,
      Except.ok ()) := by
  induction l with
  | nil => rfl
  | cons size rest ih =>
      unfold makeDirs
      rw [h size (by simp)]
      simp [ih fun s hs => h s (by simp [hs])]

theorem makeDirs_mem_mkdir (env : Env) (l : List Nat) (e : Event)
    (h : e ∈ (makeDirs env l).1) : ∃ d, e = Event.mkdir d true true := by
  induction l with
  | nil => simp [makeDirs] at h
  | cons size rest ih =>
      unfold makeDirs at h
      by_cases hm : env.mkdirOk (sizeDir size) = true
      · simp [hm] at h
        rcases h with h | h
        · exact ⟨sizeDir size, h⟩
        · exact ih h
      · simp [hm] at h

theorem makeDirs_snd_ok_iff (env : Env) (l : List Nat) :
    (makeDirs env l).2 = Except.ok () ↔ ∀ size ∈ l, env.mkdirOk (sizeDir size) = true := by
  induction l with
  | nil => simp [makeDirs]
  | cons size rest ih =>
      unfold makeDirs
      by_cases hm : env.mkdirOk (sizeDir size) = true
      · simp [hm, ih]
      · simp [hm]

/-- With a successful setup phase, the full trace in closed form. -/
theorem runScript_ok_eq (env : Env)
    (h : ∀ size ∈ allWidths, env.mkdirOk (sizeDir size) = true) :
    runScript env =
      ((allWidths.map fun size => Event.mkdir (sizeDir size) true true)
        ++ [Event.printed "Generating PNG exports..."]
        ++ (svg_files.map fun p => (processSource env p.1 p.2).1).flatten
        ++ [Event.printed closingLine],
       Except.ok ()) := by
  unfold runScript
  rw [makeDirs_all_ok env allWidths h, runSources_eq]

theorem primaryResult_ok_iff (o : RunOutcome) :
    primaryResult o = Except.ok () ↔ statusOf o = Except.ok 0 := by
  cases o with
  | completed rc out err =>
      by_cases hrc : rc = 0 <;> simp [primaryResult, statusOf, hrc]
  | raised e => simp [primaryResult, statusOf]

theorem secondaryResult_ok_iff (o : RunOutcome) :
    secondaryResult o = Except.ok () ↔ statusOf o = Except.ok 0 := by
  cases o with
  | completed rc out err =>
      by_cases hrc : rc = 0 <;> simp [secondaryResult, statusOf, hrc]
  | raised e => simp [secondaryResult, statusOf]

theorem primaryResult_error_of_fail (o : RunOutcome) (h : statusOf o ≠ Except.ok 0) :
    ∃ e, primaryResult o = Except.error e := by
  cases ho : primaryResult o with
  | ok u => exact absurd ((primaryResult_ok_iff o).mp (by rw [ho])) h
  | error e => exact ⟨e, rfl⟩

theorem secondaryResult_error_of_fail (o : RunOutcome) (h : statusOf o ≠ Except.ok 0) :
    ∃ e, secondaryResult o = Except.error e := by
  cases ho : secondaryResult o with
  | ok u => exact absurd ((secondaryResult_ok_iff o).mp (by rw [ho])) h
  | error e => exact ⟨e, rfl⟩

theorem processPair_of_primary_ok (pOut sOut : RunOutcome) (svgFile base : String)
    (size : Nat) (h : statusOf pOut = Except.ok 0) :
    processPair pOut sOut svgFile base size =
      ([.runInkscape (svgPath svgFile) size (outputPath base size) true,
        .printed ("Created " ++ outputName base size)], .ok ()) := by
  unfold processPair
  rw [(primaryResult_ok_iff pOut).mpr h]

theorem processPair_of_primary_fail (pOut sOut : RunOutcome) (svgFile base : String)
    (size : Nat) (h : statusOf pOut ≠ Except.ok 0) (h2 : statusOf sOut = Except.ok 0) :
    processPair pOut sOut svgFile base size =
      ([.runInkscape (svgPath svgFile) size (outputPath base size) true,
        .runMagick (svgPath svgFile) size (outputPath base size) true,
        .printed ("Created " ++ outputName base size ++ " (with ImageMagick)")], .ok ()) := by
  obtain ⟨e, he⟩ := primaryResult_error_of_fail pOut h
  unfold processPair
  rw [he, (secondaryResult_ok_iff sOut).mpr h2]
  rfl

theorem processPair_of_both_fail (pOut sOut : RunOutcome) (svgFile base : String)
    (size : Nat) (h : statusOf pOut ≠ Except.ok 0) (h2 : statusOf sOut ≠ Except.ok 0) :
    processPair pOut sOut svgFile base size =
      ([.runInkscape (svgPath svgFile) size (outputPath base size) true,
        .runMagick (svgPath svgFile) size (outputPath base size) true,
        .printed ("Could not convert " ++ svgFile ++ " to " ++ toString size
          ++ "px PNG - tools not available")], .ok ()) := by
  obtain ⟨e, he⟩ := primaryResult_error_of_fail pOut h
  obtain ⟨e2, he2⟩ := secondaryResult_error_of_fail sOut h2
  unfold processPair
  rw [he, he2]
  rfl

/-- Every event of one pair's trace is the Inkscape invocation for this
pair, the ImageMagick invocation for this pair, or a printed line. -/
theorem processPair_mem (pOut sOut : RunOutcome) (svgFile base : String) (size : Nat)
    (e : Event) (h : e ∈ (processPair pOut sOut svgFile base size).1) :
    e = .runInkscape (svgPath svgFile) size (outputPath base size) true
    ∨ e = .runMagick (svgPath svgFile) size (outputPath base size) true
    ∨ ∃ s, e = .printed s := by
  by_cases hp : statusOf pOut = Except.ok 0
  · rw [processPair_of_primary_ok pOut sOut svgFile base size hp] at h
    simp at h
    rcases h with h | h
    · exact Or.inl h
    · exact Or.inr (Or.inr ⟨_, h⟩)
  · by_cases hs : statusOf sOut = Except.ok 0
    · rw [processPair_of_primary_fail pOut sOut svgFile base size hp hs] at h
      simp at h
      rcases h with h | h | h
      · exact Or.inl h
      · exact Or.inr (Or.inl h)
      · exact Or.inr (Or.inr ⟨_, h⟩)
    · rw [processPair_of_both_fail pOut sOut svgFile base size hp hs] at h
      simp at h
      rcases h with h | h | h
      · exact Or.inl h
      · exact Or.inr (Or.inl h)
      · exact Or.inr (Or.inr ⟨_, h⟩)

/-- The ImageMagick invocation appears in a pair's trace exactly when the
Inkscape attempt did not exit with status zero. -/
theorem runMagick_mem_pair_iff (pOut sOut : RunOutcome) (svgFile base : String)
    (size : Nat) :
    (∃ out c, Event.runMagick (svgPath svgFile) size out c
        ∈ (processPair pOut sOut svgFile base size).1)
      ↔ statusOf pOut ≠ Except.ok 0 := by
  constructor
  · rintro ⟨out, c, hmem⟩ hp
    rw [processPair_of_primary_ok pOut sOut svgFile base size hp] at hmem
    simp at hmem
  · intro hp
    by_cases hs : statusOf sOut = Except.ok 0
    · rw [processPair_of_primary_fail pOut sOut svgFile base size hp hs]
      exact ⟨outputPath base size, true, by simp⟩
    · rw [processPair_of_both_fail pOut sOut svgFile base size hp hs]
      exact ⟨outputPath base size, true, by simp⟩

theorem makeDirs_snd_cases (env : Env) (l : List Nat) :
    (makeDirs env l).2 = Except.ok () ∨ (makeDirs env l).2 = Except.error ExcClass.osError := by
  induction l with
  | nil => exact Or.inl rfl
  | cons size rest ih =>
      unfold makeDirs
      by_cases hm : env.mkdirOk (sizeDir size) = true
      · simpa [hm] using ih
      · simp [hm]

/-- With a failing setup phase, the run stops inside `makeDirs` with an
uncaught `OSError`. -/
theorem runScript_setup_fail (env : Env)
    (h : ¬ ∀ size ∈ allWidths, env.mkdirOk (sizeDir size) = true) :
    runScript env = ((makeDirs env allWidths).1, Except.error ExcClass.osError) := by
  have h2 : (makeDirs env allWidths).2 = Except.error ExcClass.osError := by
    rcases makeDirs_snd_cases env allWidths with hok | herr
    · exact absurd ((makeDirs_snd_ok_iff env allWidths).mp hok) h
    · exact herr
  simp only [runScript]
  rw [h2]

/-- Every event of the full trace is a `mkdir` with `parents=True,
exist_ok=True`, the opening or closing print, a skip notice for a registry
entry whose source is missing, or an event of the pair trace of a registry
entry whose source file exists, at some catalogued width. -/
theorem mem_runScript_cases (env : Env) (e : Event) (h : e ∈ (runScript env).1) :
    (∃ d, e = .mkdir d true true)
    ∨ e = .printed "Generating PNG exports..."
    ∨ e = .printed closingLine
    ∨ (∃ p, p ∈ svg_files ∧ env.fsExists (svgPath p.1) = false
        ∧ e = .printed ("Skipping " ++ p.1 ++ " - file not found"))
    ∨ ∃ p, p ∈ svg_files ∧ env.fsExists (svgPath p.1) = true ∧
        ∃ size, size ∈ allWidths ∧
          e ∈ (processPair (env.primary p.1 size) (env.secondary p.1 size) p.1 p.2 size).1 := by
  by_cases hall : ∀ size ∈ allWidths, env.mkdirOk (sizeDir size) = true
  · rw [runScript_ok_eq env hall] at h
    simp only [List.append_assoc, List.mem_append, List.mem_map, List.mem_flatten,
      List.mem_singleton] at h
    rcases h with ⟨size, hsz, rfl⟩ | rfl | ⟨l, ⟨p, hp, rfl⟩, hmem⟩ | rfl
    · exact Or.inl ⟨sizeDir size, rfl⟩
    · exact Or.inr (Or.inl rfl)
    · by_cases hex : env.fsExists (svgPath p.1) = true
      · rw [processSource, if_pos hex, runWidths_eq] at hmem
        simp only [List.mem_flatten, List.mem_map] at hmem
        rcases hmem with ⟨l2, ⟨size, hsz, rfl⟩, hmem⟩
        exact Or.inr (Or.inr (Or.inr (Or.inr ⟨p, hp, hex, size, hsz, hmem⟩)))
      · rw [processSource, if_neg hex] at hmem
        simp only [List.mem_singleton] at hmem
        simp only [Bool.not_eq_true] at hex
        exact Or.inr (Or.inr (Or.inr (Or.inl ⟨p, hp, hex, hmem⟩)))
    · exact Or.inr (Or.inr (Or.inl rfl))
  · rw [runScript_setup_fail env hall] at h
    exact Or.inl (makeDirs_mem_mkdir env allWidths e h)

/-- The orchestrator itself never writes a file: no `wrote` event occurs in
any trace (all PNG writing is done by the external tools). -/
theorem no_wrote (env : Env) (p : String) : Event.wrote p ∉ (runScript env).1 := by
  intro h
  rcases mem_runScript_cases env _ h with ⟨d, hd⟩ | hs | hs | ⟨q, _, _, hs⟩ |
    ⟨q, _, _, size, _, hmem⟩
  · exact Event.noConfusion hd
  · exact Event.noConfusion hs
  · exact Event.noConfusion hs
  · exact Event.noConfusion hs
  · rcases processPair_mem _ _ _ _ _ _ hmem with h1 | h1 | ⟨s, h1⟩ <;>
      exact Event.noConfusion h1

/-- Any event of a pair's trace occurs in the full trace, provided setup
succeeded, the pair's registry entry is real, its source exists, and the
width is catalogued. -/
theorem pair_trace_sub_runScript (env : Env)
    (hmk : ∀ size ∈ allWidths, env.mkdirOk (sizeDir size) = true)
    (f b : String) (hfb : (f, b) ∈ svg_files)
    (hex : env.fsExists (svgPath f) = true) (size : Nat) (hsz : size ∈ allWidths)
    (e : Event)
    (he : e ∈ (processPair (env.primary f size) (env.secondary f size) f b size).1) :
    e ∈ (runScript env).1 := by
  rw [runScript_ok_eq env hmk]
  simp only [List.append_assoc, List.mem_append, List.mem_flatten, List.mem_map]
  refine Or.inr (Or.inr (Or.inl ⟨(processSource env f b).1, ⟨(f, b), hfb, rfl⟩, ?_⟩))
  rw [processSource, if_pos hex, runWidths_eq]
  simp only [List.mem_flatten, List.mem_map]
  exact ⟨_, ⟨size, hsz, rfl⟩, he⟩

/-- When setup succeeds, the closing summary line is printed. -/
theorem closing_mem (env : Env)
    (hmk : ∀ size ∈ allWidths, env.mkdirOk (sizeDir size) = true) :
    Event.printed closingLine ∈ (runScript env).1 := by
  rw [runScript_ok_eq env hmk]
  simp

/-- On a failed primary attempt, the pair's trace contains the ImageMagick
invocation at the computed output path. -/
theorem runMagick_mem_pair_of_fail (pOut sOut : RunOutcome) (f b : String) (size : Nat)
    (hp : statusOf pOut ≠ Except.ok 0) :
    Event.runMagick (svgPath f) size (outputPath b size) true
      ∈ (processPair pOut sOut f b size).1 := by
  by_cases hs : statusOf sOut = Except.ok 0
  · rw [processPair_of_primary_fail pOut sOut f b size hp hs]; simp
  · rw [processPair_of_both_fail pOut sOut f b size hp hs]; simp

/-- Any Inkscape or ImageMagick invocation in the full trace belongs to a
registry entry with an existing source, at a catalogued width, with the
source path and output path computed from that entry, and with
`capture_output=True`. -/
theorem attempt_mem_runScript (env : Env) (svg : String) (size : Nat) (out : String)
    (c : Bool)
    (h : Event.runInkscape svg size out c ∈ (runScript env).1
        ∨ Event.runMagick svg size out c ∈ (runScript env).1) :
    ∃ p, p ∈ svg_files ∧ env.fsExists (svgPath p.1) = true ∧ size ∈ allWidths
      ∧ svg = svgPath p.1 ∧ out = outputPath p.2 size ∧ c = true := by
  rcases h with h | h <;>
  · rcases mem_runScript_cases env _ h with ⟨d, hd⟩ | hs | hs | ⟨q, _, _, hs⟩ |
      ⟨q, hq, hex, size', hsz, hmem⟩
    · exact Event.noConfusion hd
    · exact Event.noConfusion hs
    · exact Event.noConfusion hs
    · exact Event.noConfusion hs
    · rcases processPair_mem _ _ _ _ _ _ hmem with h1 | h1 | ⟨s, h1⟩
      all_goals first
        | exact Event.noConfusion h1
        | (injection h1 with e1 e2 e3 e4
           exact ⟨q, hq, hex, e2 ▸ hsz, e1, e2 ▸ e3, e4⟩)

theorem string_append_left_cancel {a x y : String} (h : a ++ x = a ++ y) : x = y := by
  have hd := congrArg String.data h
  rw [String.data_append a x, String.data_append a y] at hd
  have := List.append_cancel_left hd
  cases x
  cases y
  exact congrArg String.mk this

theorem pathJoin_right_inj {a x y : String} (h : pathJoin a x = pathJoin a y) : x = y := by
  unfold pathJoin at h
  exact string_append_left_cancel h

theorem svgPath_inj {f f' : String} (h : svgPath f = svgPath f') : f = f' :=
  pathJoin_right_inj h

/-- `svg_files` is a function of its keys: each file name has one token. -/
theorem tokenFor_eq_of_mem {f b : String} (h : (f, b) ∈ svg_files) :
    tokenFor f = some b := by
  simp only [svg_files, List.mem_cons, List.not_mem_nil, or_false, Prod.mk.injEq] at h
  rcases h with ⟨rfl, rfl⟩ | ⟨rfl, rfl⟩ | ⟨rfl, rfl⟩ | ⟨rfl, rfl⟩ | ⟨rfl, rfl⟩ |
    ⟨rfl, rfl⟩ | ⟨rfl, rfl⟩ <;> rfl

theorem primaryResult_congr {o₁ o₂ : RunOutcome} (h : statusOf o₁ = statusOf o₂) :
    primaryResult o₁ = primaryResult o₂ := by
  cases o₁ <;> cases o₂ <;> simp_all [statusOf, primaryResult]

theorem secondaryResult_congr {o₁ o₂ : RunOutcome} (h : statusOf o₁ = statusOf o₂) :
    secondaryResult o₁ = secondaryResult o₂ := by
  cases o₁ <;> cases o₂ <;> simp_all [statusOf, secondaryResult]

/-- The pair trace depends on the tool outcomes only through their statuses:
captured stdout/stderr never influence it. -/
theorem processPair_congr {p₁ p₂ s₁ s₂ : RunOutcome} (f b : String) (size : Nat)
    (hp : statusOf p₁ = statusOf p₂) (hs : statusOf s₁ = statusOf s₂) :
    processPair p₁ s₁ f b size = processPair p₂ s₂ f b size := by
  unfold processPair
  rw [primaryResult_congr hp, secondaryResult_congr hs]

/-- The pair trace depends on the Inkscape outcome only through whether the
exit status was zero: every kind of primary failure is treated alike. -/
theorem processPair_primary_uniform (p₁ p₂ s : RunOutcome) (f b : String) (size : Nat)
    (h : statusOf p₁ = Except.ok 0 ↔ statusOf p₂ = Except.ok 0) :
    processPair p₁ s f b size = processPair p₂ s f b size := by
  by_cases h1 : statusOf p₁ = Except.ok 0
  · rw [processPair_of_primary_ok _ _ _ _ _ h1,
      processPair_of_primary_ok _ _ _ _ _ (h.mp h1)]
  · have h2 : statusOf p₂ ≠ Except.ok 0 := fun hx => h1 (h.mpr hx)
    by_cases hsec : statusOf s = Except.ok 0
    · rw [processPair_of_primary_fail _ _ _ _ _ h1 hsec,
        processPair_of_primary_fail _ _ _ _ _ h2 hsec]
    · rw [processPair_of_both_fail _ _ _ _ _ h1 hsec,
        processPair_of_both_fail _ _ _ _ _ h2 hsec]

theorem makeDirs_congr (env₁ env₂ : Env) (hmk : env₁.mkdirOk = env₂.mkdirOk)
    (l : List Nat) : makeDirs env₁ l = makeDirs env₂ l := by
  induction l with
  | nil => rfl
  | cons size rest ih => unfold makeDirs; rw [hmk, ih]

theorem runWidths_congr (env₁ env₂ : Env) (f b : String)
    (hp : ∀ g size, statusOf (env₁.primary g size) = statusOf (env₂.primary g size))
    (hs : ∀ g size, statusOf (env₁.secondary g size) = statusOf (env₂.secondary g size))
    (l : List Nat) : runWidths env₁ f b l = runWidths env₂ f b l := by
  induction l with
  | nil => rfl
  | cons size rest ih =>
      unfold runWidths
      rw [processPair_congr f b size (hp f size) (hs f size), ih]

theorem processSource_congr (env₁ env₂ : Env) (f b : String)
    (hfs : env₁.fsExists = env₂.fsExists)
    (hp : ∀ g size, statusOf (env₁.primary g size) = statusOf (env₂.primary g size))
    (hs : ∀ g size, statusOf (env₁.secondary g size) = statusOf (env₂.secondary g size)) :
    processSource env₁ f b = processSource env₂ f b := by
  unfold processSource
  rw [hfs, runWidths_congr env₁ env₂ f b hp hs]

theorem runSources_congr (env₁ env₂ : Env)
    (hfs : env₁.fsExists = env₂.fsExists)
    (hp : ∀ g size, statusOf (env₁.primary g size) = statusOf (env₂.primary g size))
    (hs : ∀ g size, statusOf (env₁.secondary g size) = statusOf (env₂.secondary g size))
    (l : List (String × String)) : runSources env₁ l = runSources env₂ l := by
  induction l with
  | nil => rfl
  | cons p rest ih =>
      obtain ⟨f, b⟩ := p
      unfold runSources
      rw [processSource_congr env₁ env₂ f b hfs hp hs, ih]

/-- The whole run depends only on filesystem state, `mkdir` success, and the
status of each tool invocation — not on anything the tools print. -/
theorem runScript_congr (env₁ env₂ : Env)
    (hfs : env₁.fsExists = env₂.fsExists) (hmk : env₁.mkdirOk = env₂.mkdirOk)
    (hp : ∀ g size, statusOf (env₁.primary g size) = statusOf (env₂.primary g size))
    (hs : ∀ g size, statusOf (env₁.secondary g size) = statusOf (env₂.secondary g size)) :
    runScript env₁ = runScript env₂ := by
  unfold runScript
  rw [makeDirs_congr env₁ env₂ hmk, runSources_congr env₁ env₂ hfs hp hs]

/-- An ImageMagick invocation in the full trace means the Inkscape attempt
for that source and width did not exit with status zero. -/
theorem magick_mem_implies_primary_fail (env : Env) (svg : String) (size : Nat)
    (out : String) (c : Bool)
    (h : Event.runMagick svg size out c ∈ (runScript env).1) :
    ∃ p, p ∈ svg_files ∧ svg = svgPath p.1
      ∧ statusOf (env.primary p.1 size) ≠ Except.ok 0 := by
  rcases mem_runScript_cases env _ h with ⟨d, hd⟩ | hs | hs | ⟨q, _, _, hs⟩ |
    ⟨q, hq, hex, size', hsz, hmem⟩
  · exact Event.noConfusion hd
  · exact Event.noConfusion hs
  · exact Event.noConfusion hs
  · exact Event.noConfusion hs
  · rcases processPair_mem _ _ _ _ _ _ hmem with h1 | h1 | ⟨s, h1⟩
    · exact Event.noConfusion h1
    · injection h1 with e1 e2 e3 e4
      subst e1 e2
      exact ⟨q, hq, rfl,
        (runMagick_mem_pair_iff _ _ _ _ _).mp ⟨_, _, hmem⟩⟩
    · exact Event.noConfusion h1

/-- Every line a pair's trace prints is a creation notice for this pair's
output name or the conversion-failure notice for this pair. -/
theorem processPair_printed_shape (pOut sOut : RunOutcome) (f b : String) (size : Nat)
    (s : String) (h : Event.printed s ∈ (processPair pOut sOut f b size).1) :
    s = "Created " ++ outputName b size
    ∨ s = "Created " ++ outputName b size ++ " (with ImageMagick)"
    ∨ s = "Could not convert " ++ f ++ " to " ++ toString size
        ++ "px PNG - tools not available" := by
  by_cases hp : statusOf pOut = Except.ok 0
  · rw [processPair_of_primary_ok _ _ _ _ _ hp] at h
    simp only [List.mem_cons, List.not_mem_nil, or_false] at h
    rcases h with h | h
    · exact Event.noConfusion h
    · injection h with h1; exact Or.inl h1
  · by_cases hsec : statusOf sOut = Except.ok 0
    · rw [processPair_of_primary_fail _ _ _ _ _ hp hsec] at h
      simp only [List.mem_cons, List.not_mem_nil, or_false] at h
      rcases h with h | h | h
      · exact Event.noConfusion h
      · exact Event.noConfusion h
      · injection h with h1; exact Or.inr (Or.inl h1)
    · rw [processPair_of_both_fail _ _ _ _ _ hp hsec] at h
      simp only [List.mem_cons, List.not_mem_nil, or_false] at h
      rcases h with h | h | h
      · exact Event.noConfusion h
      · exact Event.noConfusion h
      · injection h with h1; exact Or.inr (Or.inr h1)

/-- Every registry token is one of the seven declared tokens. -/
theorem token_mem (p : String × String) (h : p ∈ svg_files) :
    p.2 ∈ ["primary", "horizontal", "icon", "waves", "black", "white", "wordmark"] := by
  obtain ⟨f, b⟩ := p
  simp only [svg_files, List.mem_cons, List.not_mem_nil, or_false, Prod.mk.injEq] at h
  rcases h with ⟨rfl, rfl⟩ | ⟨rfl, rfl⟩ | ⟨rfl, rfl⟩ | ⟨rfl, rfl⟩ | ⟨rfl, rfl⟩ |
    ⟨rfl, rfl⟩ | ⟨rfl, rfl⟩ <;> decide

/-! ## Claims -/

/-- C1 (counterexample): with every source missing and setup succeeding, the
full run prints the "file not found" notice for `synced-sports-primary.svg`
exactly once — not six times (once per width) as the claim asserts. -/
theorem c1_counterexample :
    (runScript envNone).1.count
        (Event.printed "Skipping synced-sports-primary.svg - file not found") = 1
    ∧ ¬ (runScript envNone).1.count
        (Event.printed "Skipping synced-sports-primary.svg - file not found") = 6 := by
  decide

/-- C1 (amended): the existence check runs once per source, at the top of
the source loop and before the width loop; a registry entry whose source
file does not exist contributes exactly one "file not found" notice to the
run and nothing else — one notice per missing source, not one per width. -/
theorem c1_notice_once_per_source (env : Env) (f b : String)
    (h : env.fsExists (svgPath f) = false) :
    processSource env f b =
      ([Event.printed ("Skipping " ++ f ++ " - file not found")], Except.ok ()) := by
  rw [processSource, if_neg (by simp [h])]

/-- C1 witness: the amended statement at a concrete missing source. -/
theorem c1_witness :
    envNone.fsExists (svgPath "synced-sports-primary.svg") = false
    ∧ processSource envNone "synced-sports-primary.svg" "primary" =
        ([Event.printed ("Skipping " ++ "synced-sports-primary.svg"
          ++ " - file not found")], Except.ok ()) :=
  ⟨rfl, c1_notice_once_per_source envNone "synced-sports-primary.svg" "primary" rfl⟩

/-- C3: the run terminates abnormally exactly when some setup-phase `mkdir`
fails; whenever setup succeeds — whatever the sources and tools do — the
run completes normally and reaches the closing summary line. -/
theorem c3_fatal_iff_setup_fails (env : Env) :
    ((runScript env).2 = Except.ok ()
      ↔ ∀ size ∈ allWidths, env.mkdirOk (sizeDir size) = true)
    ∧ ((∀ size ∈ allWidths, env.mkdirOk (sizeDir size) = true) →
        Event.printed closingLine ∈ (runScript env).1) := by
  constructor
  · constructor
    · intro hok
      by_contra hall
      rw [runScript_setup_fail env hall] at hok
      exact Except.noConfusion hok
    · intro hall
      rw [runScript_ok_eq env hall]
  · exact closing_mem env

/-- C3 witness: with every `mkdir` succeeding and both tools failing on
every pair, the run still completes normally. -/
theorem c3_witness :
    (runScript envNoTools).2 = Except.ok ()
    ∧ Event.printed closingLine ∈ (runScript envNoTools).1 :=
  ⟨(c3_fatal_iff_setup_fails envNoTools).1.mpr (by decide),
   (c3_fatal_iff_setup_fails envNoTools).2 (by decide)⟩

/-- C6: when setup succeeds, the trace starts with exactly the six `mkdir`
events — one per width, each with `parents=True` and `exist_ok=True`
(idempotent creation, pre-existing directories not an error) — before any
conversion event, whatever happens in the conversion phase afterwards. -/
theorem c6_dirs_created_first (env : Env)
    (hmk : ∀ size ∈ allWidths, env.mkdirOk (sizeDir size) = true) :
    ∃ rest, (runScript env).1 =
      ([32, 64, 128, 256, 512, 1024].map fun size =>
        Event.mkdir (sizeDir size) true true) ++ rest := by
  rw [runScript_ok_eq env hmk]
  exact ⟨_, rfl⟩

/-- C6 witness: at a concrete environment (all tools absent). -/
theorem c6_witness :
    ∃ rest, (runScript envNoTools).1 =
      ([32, 64, 128, 256, 512, 1024].map fun size =>
        Event.mkdir (sizeDir size) true true) ++ rest :=
  c6_dirs_created_first envNoTools (by decide)

/-- C7: a registry entry whose source file is absent is skipped entirely:
no Inkscape and no ImageMagick invocation for that source at any width
occurs anywhere in the run (hence no output file for it is ever targeted). -/
theorem c7_missing_source_never_attempted (env : Env) (f b : String)
    (_hfb : (f, b) ∈ svg_files) (hmiss : env.fsExists (svgPath f) = false) :
    ∀ (size : Nat) (out : String) (c : Bool),
      Event.runInkscape (svgPath f) size out c ∉ (runScript env).1
      ∧ Event.runMagick (svgPath f) size out c ∉ (runScript env).1 := by
  intro size out c
  constructor <;> intro h
  · obtain ⟨p, _, hex, _, h1, _, _⟩ :=
      attempt_mem_runScript env _ size out c (Or.inl h)
    rw [svgPath_inj h1, hex] at hmiss
    exact Bool.noConfusion hmiss
  · obtain ⟨p, _, hex, _, h1, _, _⟩ :=
      attempt_mem_runScript env _ size out c (Or.inr h)
    rw [svgPath_inj h1, hex] at hmiss
    exact Bool.noConfusion hmiss

/-- C7 witness: at a concrete environment with all sources missing. -/
theorem c7_witness :
    Event.runInkscape (svgPath "synced-sports-primary.svg") 32
        (outputPath "primary" 32) true ∉ (runScript envNone).1
    ∧ Event.runMagick (svgPath "synced-sports-primary.svg") 32
        (outputPath "primary" 32) true ∉ (runScript envNone).1 :=
  c7_missing_source_never_attempted envNone "synced-sports-primary.svg" "primary"
    (by decide) rfl 32 (outputPath "primary" 32) true

/-- C9: the bare `except:` handlers catch every exception class —
`KeyboardInterrupt` and `SystemExit` included — so an interrupt raised
while blocked on a tool is absorbed: a primary-attempt exception of any
class still triggers the ImageMagick fallback for that pair, and even both
attempts raising interrupt/exit classes leaves the pair's step terminating
normally rather than ending the sweep. -/
theorem c9_bare_except_catches_all (sOut : RunOutcome) (f b : String) (size : Nat)
    (e : ExcClass) :
    bareExceptCatches e = true
    ∧ (processPair (.raised e) sOut f b size).2 = Except.ok ()
    ∧ Event.runMagick (svgPath f) size (outputPath b size) true
        ∈ (processPair (.raised e) sOut f b size).1
    ∧ (processPair (.raised ExcClass.keyboardInterrupt)
        (.raised ExcClass.systemExit) f b size).2 = Except.ok () := by
  refine ⟨rfl, processPair_snd_ok .., ?_, processPair_snd_ok ..⟩
  exact runMagick_mem_pair_of_fail _ _ f b size (by simp [statusOf])

/-- C2: for a pair with an existing source, the ImageMagick rasterizer is
invoked exactly when the Inkscape attempt did not exit with status zero;
and the pair's behaviour depends on the Inkscape outcome only through
whether its exit status was zero — non-zero exit, failure to launch, and
any other raised exception are treated identically. -/
theorem c2_fallback_iff_primary_fails (env : Env) (f b : String) (size : Nat)
    (hmk : ∀ s ∈ allWidths, env.mkdirOk (sizeDir s) = true)
    (hfb : (f, b) ∈ svg_files) (hex : env.fsExists (svgPath f) = true)
    (hsz : size ∈ allWidths) :
    ((∃ out c, Event.runMagick (svgPath f) size out c ∈ (runScript env).1)
        ↔ statusOf (env.primary f size) ≠ Except.ok 0)
    ∧ (∀ p₁ p₂ s : RunOutcome,
        (statusOf p₁ = Except.ok 0 ↔ statusOf p₂ = Except.ok 0) →
        processPair p₁ s f b size = processPair p₂ s f b size) := by
  constructor
  · constructor
    · rintro ⟨out, c, h⟩
      obtain ⟨p, _, hsvg, hfail⟩ := magick_mem_implies_primary_fail env _ size out c h
      rwa [← svgPath_inj hsvg] at hfail
    · intro hfail
      exact ⟨outputPath b size, true,
        pair_trace_sub_runScript env hmk f b hfb hex size hsz _
          (runMagick_mem_pair_of_fail _ _ f b size hfail)⟩
  · intro p₁ p₂ s h
    exact processPair_primary_uniform p₁ p₂ s f b size h

/-- C2 witness: with Inkscape absent (launch failure) and ImageMagick
working, the fallback is invoked for a concrete pair. -/
theorem c2_witness :
    ∃ out c, Event.runMagick (svgPath "synced-sports-icon.svg") 32 out c
      ∈ (runScript envMagickOnly).1 :=
  (c2_fallback_iff_primary_fails envMagickOnly "synced-sports-icon.svg" "icon" 32
    (by decide) (by decide) rfl (by decide)).1.mpr (by simp [envMagickOnly, statusOf])

/-- C4: every Inkscape or ImageMagick invocation in any run addresses a
registry entry and a catalogued width, and its output path is exactly
`<png_dir>/<width>px/synced-sports-<token>-<width>.png`, with the width
among {32, 64, 128, 256, 512, 1024} and the token among the seven declared
tokens; both rasterizers receive the same computed path. -/
theorem c4_output_path_exact (env : Env) (svg : String) (size : Nat) (out : String)
    (c : Bool)
    (h : Event.runInkscape svg size out c ∈ (runScript env).1
        ∨ Event.runMagick svg size out c ∈ (runScript env).1) :
    ∃ p, p ∈ svg_files
      ∧ p.2 ∈ ["primary", "horizontal", "icon", "waves", "black", "white", "wordmark"]
      ∧ size ∈ [32, 64, 128, 256, 512, 1024]
      ∧ svg = svgPath p.1
      ∧ out = pathJoin (pathJoin png_dir (toString size ++ "px"))
          ("synced-sports-" ++ p.2 ++ "-" ++ toString size ++ ".png") := by
  obtain ⟨p, hp, _, hsz, h1, h2, _⟩ := attempt_mem_runScript env svg size out c h
  exact ⟨p, hp, token_mem p hp, hsz, h1, h2⟩

/-- C4 witness: the conclusion at a concrete Inkscape invocation of the
first pair of a run in which every source exists and Inkscape succeeds. -/
theorem c4_witness :
    ∃ p, p ∈ svg_files
      ∧ p.2 ∈ ["primary", "horizontal", "icon", "waves", "black", "white", "wordmark"]
      ∧ 32 ∈ [32, 64, 128, 256, 512, 1024]
      ∧ svgPath "synced-sports-primary.svg" = svgPath p.1
      ∧ outputPath "primary" 32 = pathJoin (pathJoin png_dir (toString 32 ++ "px"))
          ("synced-sports-" ++ p.2 ++ "-" ++ toString 32 ++ ".png") :=
  c4_output_path_exact envInkscapeOk (svgPath "synced-sports-primary.svg") 32
    (outputPath "primary" 32) true (Or.inl (by decide))

/-- C5: if no tool invocation ever exits with status zero, then every pair
whose source exists ends in the "Could not convert" notice, the
orchestrator writes no file and creates no placeholder (it never writes
any file in any run), and the run still prints its closing summary line
and terminates normally. -/
theorem c5_total_failure (env : Env)
    (hmk : ∀ size ∈ allWidths, env.mkdirOk (sizeDir size) = true)
    (hp : ∀ f size, statusOf (env.primary f size) ≠ Except.ok 0)
    (hs : ∀ f size, statusOf (env.secondary f size) ≠ Except.ok 0) :
    (∀ f b, (f, b) ∈ svg_files → env.fsExists (svgPath f) = true →
      ∀ size ∈ allWidths,
        Event.printed ("Could not convert " ++ f ++ " to " ++ toString size
          ++ "px PNG - tools not available") ∈ (runScript env).1)
    ∧ (∀ q, Event.wrote q ∉ (runScript env).1)
    ∧ Event.printed closingLine ∈ (runScript env).1
    ∧ (runScript env).2 = Except.ok () := by
  refine ⟨?_, no_wrote env, closing_mem env hmk, by rw [runScript_ok_eq env hmk]⟩
  intro f b hfb hex size hsz
  refine pair_trace_sub_runScript env hmk f b hfb hex size hsz _ ?_
  rw [processPair_of_both_fail _ _ f b size (hp f size) (hs f size)]
  simp

/-- C5 witness: the failure notice, absence of writes, and normal
completion at a concrete run in which neither tool can be launched. -/
theorem c5_witness :
    Event.printed ("Could not convert " ++ "synced-sports-icon.svg" ++ " to "
      ++ toString 32 ++ "px PNG - tools not available") ∈ (runScript envNoTools).1
    ∧ (∀ q, Event.wrote q ∉ (runScript envNoTools).1)
    ∧ (runScript envNoTools).2 = Except.ok () := by
  have h := c5_total_failure envNoTools (by decide)
    (fun f size => by simp [envNoTools, statusOf])
    (fun f size => by simp [envNoTools, statusOf])
  exact ⟨h.1 "synced-sports-icon.svg" "icon" (by decide) rfl 32 (by decide),
    h.2.1, h.2.2.2⟩

/-- C8: two runs with the same source availability, the same `mkdir`
behaviour, and the same tool exit statuses target the same sequence of
output paths; and within any single run, all invocations for one
(source, width) pair target one and the same output path — at most one
path per pair, so a second run overwrites the first's files in place. -/
theorem c8_idempotent_targets (env₁ env₂ : Env)
    (hfs : env₁.fsExists = env₂.fsExists) (hmk : env₁.mkdirOk = env₂.mkdirOk)
    (hp : ∀ f size, statusOf (env₁.primary f size) = statusOf (env₂.primary f size))
    (hs : ∀ f size, statusOf (env₁.secondary f size) = statusOf (env₂.secondary f size)) :
    targetPaths env₁ = targetPaths env₂
    ∧ ∀ (env : Env) (svg : String) (size : Nat) (out out' : String) (c c' : Bool),
        (Event.runInkscape svg size out c ∈ (runScript env).1
          ∨ Event.runMagick svg size out c ∈ (runScript env).1) →
        (Event.runInkscape svg size out' c' ∈ (runScript env).1
          ∨ Event.runMagick svg size out' c' ∈ (runScript env).1) →
        out = out' := by
  constructor
  · unfold targetPaths
    rw [runScript_congr env₁ env₂ hfs hmk hp hs]
  · intro env svg size out out' c c' h h'
    obtain ⟨p, hp1, _, _, e1, e2, _⟩ := attempt_mem_runScript env svg size out c h
    obtain ⟨q, hq1, _, _, e1', e2', _⟩ := attempt_mem_runScript env svg size out' c' h'
    have hkey : p.1 = q.1 := svgPath_inj (e1 ▸ e1')
    have htp : tokenFor p.1 = some p.2 :=
      tokenFor_eq_of_mem (f := p.1) (b := p.2) (by simpa using hp1)
    have htq : tokenFor q.1 = some q.2 :=
      tokenFor_eq_of_mem (f := q.1) (b := q.2) (by simpa using hq1)
    rw [hkey, htq] at htp
    rw [e2, e2', Option.some_inj.mp htp]

/-- C8 witness: runs differing only in what the tools print target the same
paths. -/
theorem c8_witness : targetPaths envChatterA = targetPaths envChatterB :=
  (c8_idempotent_targets envChatterA envChatterB rfl rfl
    (fun _ _ => rfl) (fun _ _ => rfl)).1

/-- C10: both tool invocations are made with `capture_output=True`, the
orchestrator's printed lines are exclusively its own status-line shapes,
and the whole trace is unchanged when only the tools' captured
stdout/stderr text changes — captured diagnostics are never re-emitted,
even for failing attempts. -/
theorem c10_tool_output_discarded (env₁ env₂ : Env)
    (hfs : env₁.fsExists = env₂.fsExists) (hmk : env₁.mkdirOk = env₂.mkdirOk)
    (hp : ∀ f size, statusOf (env₁.primary f size) = statusOf (env₂.primary f size))
    (hs : ∀ f size, statusOf (env₁.secondary f size) = statusOf (env₂.secondary f size)) :
    runScript env₁ = runScript env₂
    ∧ (∀ svg size out c,
        Event.runInkscape svg size out c ∈ (runScript env₁).1 → c = true)
    ∧ (∀ svg size out c,
        Event.runMagick svg size out c ∈ (runScript env₁).1 → c = true)
    ∧ (∀ s, Event.printed s ∈ (runScript env₁).1 → isStatusLine s) := by
  refine ⟨runScript_congr env₁ env₂ hfs hmk hp hs, ?_, ?_, ?_⟩
  · intro svg size out c h
    exact (attempt_mem_runScript env₁ svg size out c (Or.inl h)).choose_spec.2.2.2.2.2
  · intro svg size out c h
    exact (attempt_mem_runScript env₁ svg size out c (Or.inr h)).choose_spec.2.2.2.2.2
  · intro s h
    rcases mem_runScript_cases env₁ _ h with ⟨d, hd⟩ | hs1 | hs1 | ⟨q, _, _, hs1⟩ |
      ⟨q, _, _, size, _, hmem⟩
    · exact Event.noConfusion hd
    · injection hs1 with h1; exact Or.inl h1
    · injection hs1 with h1; exact Or.inr (Or.inl h1)
    · injection hs1 with h1; exact Or.inr (Or.inr (Or.inl ⟨q.1, h1⟩))
    · rcases processPair_printed_shape _ _ _ _ _ _ hmem with h1 | h1 | h1
      · exact Or.inr (Or.inr (Or.inr (Or.inl ⟨q.2, size, h1⟩)))
      · exact Or.inr (Or.inr (Or.inr (Or.inr (Or.inl ⟨q.2, size, h1⟩))))
      · exact Or.inr (Or.inr (Or.inr (Or.inr (Or.inr ⟨q.1, size, h1⟩))))

/-- C10 witness: two runs whose tools print different diagnostics have
identical traces, and a concrete captured invocation has
`capture_output=True`. -/
theorem c10_witness :
    runScript envChatterA = runScript envChatterB
    ∧ isStatusLine "Generating PNG exports..." := by
  have h := c10_tool_output_discarded envChatterA envChatterB rfl rfl
    (fun _ _ => rfl) (fun _ _ => rfl)
  exact ⟨h.1, h.2.2.2 "Generating PNG exports..." (by decide)⟩

end GeneratePngs
